import Mathlib

/-
Verification of the tiktok-live-recorder frontend/BFF code and spec-modelled
orchestration core.

The repository snapshot contains the Next.js frontend (form schemas, BFF proxy
routes, job detail page) and documentation of the backend service. Frontend
code is embedded directly from the TypeScript source; backend components that
are documented but whose source is not present (Job Dispatcher, Job State
Store, Watcher Registry, Poll Scheduler, Subprocess Supervisor) are modelled
from the specification, with each such definition marked in its doc comment.
-/

namespace TLR

/-! ## String constants used by the embedded code -/

def JSON_CT : String := "application/json"

def UPSTREAM_ERROR : String := "UPSTREAM_ERROR"

def TEXT_PLAIN : String := "text/plain"

def EMPTY_STR : String := ""

/-! ## Frontend form schemas (src/frontend/src/app/record/page.tsx and the
watcher page). Values are modelled at the post-parse level: strings are
already trimmed (zod applies .trim() first), numbers already coerced. -/

/-- JavaScript truthiness of a nullable/optional string field: `undefined`,
`null` and the empty string are falsy, every other string is truthy. -/
def truthy : Option String → Bool
  | none => false
  | some s => !s.isEmpty

/-- The `.refine` predicate shared by the record and watcher schemas:
`(d.room_id && !d.url) || (d.url && !d.room_id)`. -/
def xorTarget (room_id url : Option String) : Bool :=
  (truthy room_id && !truthy url) || (truthy url && !truthy room_id)

/-- Parsed data of the record form schema (room_id, url, duration, proxy,
cookies) from src/frontend/src/app/record/page.tsx. -/
structure RecordFormInput where
  room_id : Option String
  url : Option String
  duration : Option Int
  proxy : Option String
  cookies : Option String
deriving Repr, DecidableEq

/-- The record page zod schema: url must parse as a URL when present
(`urlOk` stands for zod's opaque `.url()` check), duration when present must
be an integer of at least 1 (`z.coerce.number().int().min(1)`), and the
refine requires exactly one of room_id / url to be truthy. -/
def recordSchemaParses (urlOk : String → Bool) (d : RecordFormInput) : Bool :=
  (match d.url with
    | none => true
    | some s => urlOk s)
  && (match d.duration with
    | none => true
    | some n => decide (1 ≤ n))
  && xorTarget d.room_id d.url

def POLL_INTERVAL_MIN : Int := 10

def POLL_INTERVAL_DEFAULT : Int := 60

/-- Parsed data of the watcher form schema (room_id, url, poll_interval,
proxy, cookies); `poll_interval = none` means the field was absent and zod's
`.default(60)` applies. -/
structure WatcherFormInput where
  room_id : Option String
  url : Option String
  poll_interval : Option Int
  proxy : Option String
  cookies : Option String
deriving Repr, DecidableEq

/-- The effective poll interval after zod's `.default(60)`. -/
def pollIntervalValue (d : WatcherFormInput) : Int :=
  d.poll_interval.getD POLL_INTERVAL_DEFAULT

/-- The watcher form zod schema: `z.coerce.number().int().min(10).default(60)`
for poll_interval, plus the same url check and XOR refine as the record
schema. -/
def watcherSchemaParses (urlOk : String → Bool) (d : WatcherFormInput) : Bool :=
  (match d.url with
    | none => true
    | some s => urlOk s)
  && decide (POLL_INTERVAL_MIN ≤ pollIntervalValue d)
  && xorTarget d.room_id d.url

/-! ## BFF passthrough helper (src/frontend/src/app/api/_utils.ts) -/

/-- `String.includes` of JavaScript: the pattern occurs as a substring.
For a nonempty pattern, `splitOn` yields at least two pieces exactly when the
pattern occurs. -/
def includes (s pat : String) : Bool :=
  pat.isEmpty || (s.splitOn pat).length ≥ 2

/-- JavaScript `a || b` on a nullable string `a` with string fallback `b`:
falls through on `undefined`/`null` and on the empty string. -/
def jsOr : Option String → String → String
  | none, dflt => dflt
  | some s, dflt => if s.isEmpty then dflt else s

/-- JavaScript `a || undefined` on a nullable string. -/
def jsOrUndefined : Option String → Option String
  | none => none
  | some s => if s.isEmpty then none else some s

/-- The fields of the upstream JSON body that `passthrough` reads
(`data?.error_code`, `data?.detail`, `data?.error_message`). -/
structure UpstreamJson where
  error_code : Option String
  detail : Option String
  error_message : Option String
deriving Repr, DecidableEq

/-- An upstream `fetch` Response as observed by `passthrough`: status,
statusText, the content-type and x-correlation-id headers, and the body both
as parsed JSON (used when the content type is JSON) and as raw text. -/
structure UpstreamResponse where
  status : Nat
  statusText : String
  contentType : Option String
  correlationId : Option String
  json : UpstreamJson
  text : String
deriving Repr, DecidableEq

/-- `Response.ok` of fetch: status in the range 200..299. -/
def UpstreamResponse.isOk (r : UpstreamResponse) : Bool :=
  200 ≤ r.status && r.status < 300

/-- The body of the NextResponse produced by `passthrough`: either the
normalized error shape, the passed-through JSON, or passed-through text with
a content type. -/
inductive BffBody
  | errorJson (error_code error_message : String) (correlation_id : Option String)
  | jsonPass (data : UpstreamJson)
  | textPass (text contentType : String)
deriving Repr, DecidableEq

structure BffResponse where
  status : Nat
  body : BffBody
deriving Repr, DecidableEq

/-- The `passthrough` helper of src/frontend/src/app/api/_utils.ts: four
branches on (content type includes application/json) x (res.ok), each
propagating the upstream status. -/
def passthrough (res : UpstreamResponse) : BffResponse :=
  let ct := res.contentType.getD EMPTY_STR
  if includes ct JSON_CT then
    if !res.isOk then
      { status := res.status
        body := BffBody.errorJson (jsOr res.json.error_code UPSTREAM_ERROR)
          (jsOr res.json.detail (jsOr res.json.error_message res.statusText))
          (jsOrUndefined res.correlationId) }
    else
      { status := res.status, body := BffBody.jsonPass res.json }
  else
    if !res.isOk then
      { status := res.status
        body := BffBody.errorJson UPSTREAM_ERROR (jsOr (some res.text) res.statusText) none }
    else
      { status := res.status
        body := BffBody.textPass res.text (if ct.isEmpty then TEXT_PLAIN else ct) }

/-! ## Theorems: frontend claims -/

lemma xorTarget_eq_false (a b : Option String) (h : truthy a = truthy b) :
    xorTarget a b = false := by
  unfold xorTarget
  rw [h]
  cases truthy b <;> simp

/-- Claim C1: a submission with both target fields set, or with neither set,
is rejected by the schema (so no request is sent and no job id issued). Both
the record form schema and the watcher form schema enforce the XOR refine. -/
theorem target_xor_required (urlOk : String → Bool)
    (d : RecordFormInput) (w : WatcherFormInput)
    (hd : truthy d.room_id = truthy d.url)
    (hw : truthy w.room_id = truthy w.url) :
    recordSchemaParses urlOk d = false ∧ watcherSchemaParses urlOk w = false := by
  constructor
  · unfold recordSchemaParses
    rw [xorTarget_eq_false d.room_id d.url hd]
    simp
  · unfold watcherSchemaParses
    rw [xorTarget_eq_false w.room_id w.url hw]
    simp

def RID_EX : String := "123456789"

def URL_EX : String := "https://www.tiktok.com/@user/live"

/-- Claim C1 witness: both fields set on the record form, neither set on the
watcher form; both parses fail. -/
theorem target_xor_required_witness :
    recordSchemaParses (fun _ => true)
      ⟨some RID_EX, some URL_EX, none, none, none⟩ = false ∧
    watcherSchemaParses (fun _ => true)
      ⟨none, none, some 60, none, none⟩ = false :=
  target_xor_required (fun _ => true)
    ⟨some RID_EX, some URL_EX, none, none, none⟩
    ⟨none, none, some 60, none, none⟩ (by decide) (by decide)

/-- Claim C5: a watcher registration whose poll interval is below the
minimum of 10 seconds fails schema validation. -/
theorem poll_interval_minimum (urlOk : String → Bool) (w : WatcherFormInput)
    (h : pollIntervalValue w < POLL_INTERVAL_MIN) :
    watcherSchemaParses urlOk w = false := by
  unfold watcherSchemaParses
  rw [decide_eq_false (not_le.mpr h)]
  simp

/-- Claim C5 witness: poll_interval 5 is rejected. -/
theorem poll_interval_minimum_witness :
    watcherSchemaParses (fun _ => true)
      ⟨some RID_EX, none, some 5, none, none⟩ = false :=
  poll_interval_minimum (fun _ => true)
    ⟨some RID_EX, none, some 5, none, none⟩ (by decide)

/-- Claim C10: `passthrough` returns a response whose HTTP status equals the
upstream status, in all four branches (JSON/non-JSON x ok/error). -/
theorem passthrough_preserves_status (res : UpstreamResponse) :
    (passthrough res).status = res.status := by
  cases h1 : includes (res.contentType.getD EMPTY_STR) JSON_CT <;>
    cases h2 : res.isOk <;>
      simp [passthrough, h1, h2]

/-! ## Job status state machine and Job State Store -/

/-- The job status values of the state machine (spec section 3); the same six
strings appear in the frontend StatusBadge map
(src/frontend/src/app/jobs/[task_id]/page.tsx). -/
inductive JobStatus
  | pending
  | started
  | retry
  | success
  | failure
  | revoked
deriving DecidableEq, Repr, Fintype

/-- The wire string of each status, as rendered and matched by the frontend. -/
def JobStatus.str : JobStatus → String
  | .pending => "PENDING"
  | .started => "STARTED"
  | .retry => "RETRY"
  | .success => "SUCCESS"
  | .failure => "FAILURE"
  | .revoked => "REVOKED"

/-- The terminal-status list of JobDetailPage
(src/frontend/src/app/jobs/[task_id]/page.tsx): polling stops when the job
status is in this list. -/
def terminalStatusStrings : List String := ["SUCCESS", "FAILURE", "REVOKED"]

/-- Terminal statuses per the state machine of spec section 3. -/
def JobStatus.isTerminal : JobStatus → Bool
  | .success => true
  | .failure => true
  | .revoked => true
  | _ => false

/-- A job result payload (fields per the frontend JobStatusResponse: return
code, start/end timestamps, error message, produced files, upload results). -/
structure JobResult where
  returncode : Option Int
  started_at : Option String
  ended_at : Option String
  error_message : Option String
  files : List String
  upload_results : List (String × Bool)
deriving Repr, DecidableEq

def emptyResult : JobResult :=
  { returncode := none, started_at := none, ended_at := none
    error_message := none, files := [], upload_results := [] }

/-- A job record in the Job State Store: status, merged result, and the
watcher key for watcher-triggered submissions (none for manual ones). -/
structure Job where
  status : JobStatus
  result : JobResult
  watcher_key : Option String
deriving Repr, DecidableEq

/-- The Job State Store as a keyed table: job id to job record. -/
abbrev JobStore := List (String × Job)

inductive StoreError
  | notFound
  | terminalRejected
deriving DecidableEq, Repr

/-- Modelled from the spec: the Job State Store `read(job_id)` operation
(spec section 4.5); the store's source is not in the snapshot. -/
def store_read (st : JobStore) (id : String) : Except StoreError Job :=
  match st.lookup id with
  | some j => Except.ok j
  | none => Except.error StoreError.notFound

/-- Modelled from the spec: `write` merges the partial result into the
existing result rather than overwriting previously captured fields
(spec section 4.5). -/
def mergeResult (old patch : JobResult) : JobResult :=
  { returncode := patch.returncode <|> old.returncode
    started_at := patch.started_at <|> old.started_at
    ended_at := patch.ended_at <|> old.ended_at
    error_message := patch.error_message <|> old.error_message
    files := if patch.files.isEmpty then old.files else patch.files
    upload_results :=
      if patch.upload_results.isEmpty then old.upload_results
      else patch.upload_results }

/-- The per-entry update of a store write: the addressed, still non-terminal
record receives the new status and the merged result; every other record
(in particular every terminal record) is left untouched. -/
def writeEntry (id : String) (status : JobStatus) (patch : JobResult)
    (e : String × Job) : String × Job :=
  if e.1 == id && !e.2.status.isTerminal then
    (e.1, { e.2 with status := status, result := mergeResult e.2.result patch })
  else e

/-- Modelled from the spec: the Job State Store `write(job_id, status,
partial_result)` operation (spec section 4.5); writes after a terminal state
already recorded are rejected, and terminal records are never mutated. The
store's source is not in the snapshot. -/
def store_write (st : JobStore) (id : String) (status : JobStatus)
    (patch : JobResult) : Except StoreError JobStore :=
  match st.lookup id with
  | none => Except.error StoreError.notFound
  | some j =>
    if j.status.isTerminal then Except.error StoreError.terminalRejected
    else Except.ok (st.map (writeEntry id status patch))

/-- Claim C3: the terminal statuses are exactly SUCCESS, FAILURE and REVOKED
(the frontend's terminal list), and once a job's recorded status is terminal,
every further write to that job is rejected, leaving status and result
unchanged. -/
theorem terminal_states_final
    (st : JobStore) (id : String) (j : Job) (s2 : JobStatus) (r2 : JobResult)
    (hread : store_read st id = Except.ok j)
    (hterm : j.status.isTerminal = true) :
    (∀ s : JobStatus, s.isTerminal = true ↔ s.str ∈ terminalStatusStrings) ∧
    store_write st id s2 r2 = Except.error StoreError.terminalRejected := by
  refine ⟨by decide, ?_⟩
  unfold store_read at hread
  unfold store_write
  cases hl : st.lookup id with
  | none => rw [hl] at hread; exact absurd hread (by simp)
  | some j2 =>
    rw [hl] at hread
    have hj : j2 = j := by
      simpa using hread
    rw [hj]
    simp [hterm]

def EX_JOB_ID : String := "job-1"

def exTerminalJob : Job :=
  { status := JobStatus.success, result := emptyResult, watcher_key := none }

def exStore : JobStore := [(EX_JOB_ID, exTerminalJob)]

/-- Claim C3 witness: a store holding one SUCCESS job rejects a further
terminal write to that job. -/
theorem terminal_states_final_witness :
    (∀ s : JobStatus, s.isTerminal = true ↔ s.str ∈ terminalStatusStrings) ∧
    store_write exStore EX_JOB_ID JobStatus.failure emptyResult =
      Except.error StoreError.terminalRejected :=
  terminal_states_final exStore EX_JOB_ID exTerminalJob JobStatus.failure
    emptyResult (by rfl) (by rfl)

/-! ## Job Dispatcher -/

/-- A validated-shape capture request as consumed by the dispatcher: target
identity (room_id XOR url), optional duration, the originating watcher key
for watcher-triggered submissions, and an abstract flag standing for the
well-formedness of the option values (proxy, cookies). -/
structure SubmitRequest where
  room_id : Option String
  url : Option String
  duration : Option Nat
  watcher_key : Option String
  options_ok : Bool
deriving Repr, DecidableEq

inductive SubmitError
  | validationError
  | conflictError
deriving DecidableEq, Repr

/-- The hard duration ceiling: 24 hours in seconds (API_GUIDE.md, Input
Validation: duration limits max 24 hours). -/
def DURATION_CEILING : Nat := 86400

/-- Modelled from the spec: synchronous validation of a submission by the
Job Dispatcher (spec section 4.3): exactly one target field, duration within
the hard ceiling, well-formed option values. The dispatcher's source is not
in the snapshot. -/
def validRequest (r : SubmitRequest) : Bool :=
  xorTarget r.room_id r.url
  && (match r.duration with
    | none => true
    | some d => decide (d ≤ DURATION_CEILING))
  && r.options_ok

/-- The predicate "this store entry is a non-terminal job of watcher `key`". -/
def nonTermFor (key : String) (e : String × Job) : Bool :=
  e.2.watcher_key == some key && !e.2.status.isTerminal

/-- Modelled from the spec: the outstanding-job check of the dispatcher's
idempotency guard (spec section 4.3). -/
def hasOutstanding (st : JobStore) (key : String) : Bool :=
  st.any (nonTermFor key)

/-- The dispatcher-side system state: the job store, the two logical queues,
a fresh-id counter, and the set of jobs whose subprocess has been spawned. -/
structure DispatchState where
  store : JobStore
  lightQueue : List String
  heavyQueue : List String
  nextId : Nat
  spawned : List String
deriving Repr, DecidableEq

def jobIdOf (n : Nat) : String := toString n

/-- The job record created for a valid submission: status PENDING, empty
result, carrying the submission's watcher key. -/
def freshJob (r : SubmitRequest) : Job :=
  { status := JobStatus.pending, result := emptyResult
    watcher_key := r.watcher_key }

/-- Modelled from the spec: `submit(request) -> job_id` (spec section 4.3):
validates synchronously and fails fast before enqueueing; rejects a
watcher-triggered submission whose watcher key already has a non-terminal
job outstanding; otherwise writes a PENDING job to the store and enqueues
the id on the heavy (capture) queue. No subprocess is spawned here. The
dispatcher's source is not in the snapshot. -/
def submit (s : DispatchState) (r : SubmitRequest) :
    Except SubmitError (String × DispatchState) :=
  if !validRequest r then Except.error SubmitError.validationError
  else if (match r.watcher_key with
      | some k => hasOutstanding s.store k
      | none => false) then Except.error SubmitError.conflictError
  else
    Except.ok (jobIdOf s.nextId,
      { s with store := (jobIdOf s.nextId, freshJob r) :: s.store
               heavyQueue := s.heavyQueue ++ [jobIdOf s.nextId]
               nextId := s.nextId + 1 })

/-- `get_job(job_id)` is a read of the Job State Store (spec section 6). -/
def get_job (s : DispatchState) (id : String) : Except StoreError Job :=
  store_read s.store id

/-- Claim C2: a successful submit returns a job id whose record is PENDING
in the store, and spawns no subprocess: an immediate get_job on the returned
id yields the PENDING record and the spawned set is unchanged. -/
theorem submit_returns_pending_before_spawn
    (s : DispatchState) (r : SubmitRequest) (id : String) (s2 : DispatchState)
    (h : submit s r = Except.ok (id, s2)) :
    get_job s2 id = Except.ok (freshJob r) ∧
    (freshJob r).status = JobStatus.pending ∧
    s2.spawned = s.spawned := by
  unfold submit at h
  split at h
  · exact absurd h (by simp)
  · split at h
    · exact absurd h (by simp)
    · simp only [Except.ok.injEq, Prod.mk.injEq] at h
      obtain ⟨hid, hs2⟩ := h
      subst hid
      subst hs2
      refine ⟨?_, rfl, rfl⟩
      unfold get_job store_read
      simp [List.lookup]

def exReq : SubmitRequest :=
  { room_id := some RID_EX, url := none, duration := some 5
    watcher_key := none, options_ok := true }

def initState : DispatchState :=
  { store := [], lightQueue := [], heavyQueue := [], nextId := 0
    spawned := [] }

def EX_ID0 : String := "0"

def exState2 : DispatchState :=
  { store := [(EX_ID0, freshJob exReq)], lightQueue := []
    heavyQueue := [EX_ID0], nextId := 1, spawned := [] }

/-- Claim C2 witness: a concrete valid submission from the empty state. -/
theorem submit_returns_pending_before_spawn_witness :
    get_job exState2 EX_ID0 = Except.ok (freshJob exReq) ∧
    (freshJob exReq).status = JobStatus.pending ∧
    exState2.spawned = initState.spawned :=
  submit_returns_pending_before_spawn initState exReq EX_ID0 exState2 (by rfl)

/-- Claim C6: a submission whose duration exceeds the hard ceiling fails
synchronously with a validation error; no job id is issued. -/
theorem duration_ceiling_rejected
    (s : DispatchState) (r : SubmitRequest) (d : Nat)
    (hd : r.duration = some d) (hover : DURATION_CEILING < d) :
    submit s r = Except.error SubmitError.validationError := by
  have hv : validRequest r = false := by
    unfold validRequest
    rw [hd]
    simp [decide_eq_false (not_le.mpr hover)]
  unfold submit
  simp [hv]

def exOverReq : SubmitRequest :=
  { room_id := some RID_EX, url := none, duration := some 86401
    watcher_key := none, options_ok := true }

/-- Claim C6 witness: duration 86401 (one second over the 24-hour ceiling)
is rejected. -/
theorem duration_ceiling_rejected_witness :
    submit initState exOverReq = Except.error SubmitError.validationError :=
  duration_ceiling_rejected initState exOverReq 86401 (by rfl) (by decide)

/-! ## Duplicate-dispatch prevention (claim C4): a step relation over
dispatcher states and the at-most-one-non-terminal-job-per-watcher
invariant. -/

/-- The number of non-terminal jobs recorded for a watcher key. -/
def countNonTerminal (st : JobStore) (key : String) : Nat :=
  (st.filter (nonTermFor key)).length

/-- Modelled from the spec: the system-level actions that touch the job
store: a submission through the dispatcher, a worker acquiring a PENDING job
and spawning its subprocess (PENDING to STARTED, spec section 4.4), and a
store write delivered by a worker (spec section 4.5). -/
inductive DispatchAction
  | submitReq (r : SubmitRequest)
  | startJob (id : String)
  | writeJob (id : String) (status : JobStatus) (patch : JobResult)

/-- A worker acquiring a PENDING job: that record transitions to STARTED. -/
def storeStart (st : JobStore) (id : String) : JobStore :=
  st.map (fun e =>
    if e.1 == id && e.2.status == JobStatus.pending then
      (e.1, { e.2 with status := JobStatus.started })
    else e)

/-- Modelled from the spec: one system step; a rejected submission or
rejected write leaves the state unchanged. -/
def step (s : DispatchState) (a : DispatchAction) : DispatchState :=
  match a with
  | .submitReq r =>
    match submit s r with
    | Except.ok p => p.2
    | Except.error _ => s
  | .startJob id =>
    match store_read s.store id with
    | Except.ok j =>
      if j.status == JobStatus.pending then
        { s with store := storeStart s.store id, spawned := id :: s.spawned }
      else s
    | Except.error _ => s
  | .writeJob id status patch =>
    match store_write s.store id status patch with
    | Except.ok st2 => { s with store := st2 }
    | Except.error _ => s

def run (s : DispatchState) (acts : List DispatchAction) : DispatchState :=
  acts.foldl step s

lemma count_zero_of_no_outstanding (st : JobStore) (key : String)
    (h : hasOutstanding st key = false) : countNonTerminal st key = 0 := by
  unfold hasOutstanding at h
  unfold countNonTerminal
  induction st with
  | nil => rfl
  | cons e rest ih =>
    simp only [List.any_cons, Bool.or_eq_false_iff] at h
    rw [List.filter_cons]
    simp [h.1, ih h.2]

lemma submit_ok_shape (s : DispatchState) (r : SubmitRequest) (id : String)
    (s2 : DispatchState) (h : submit s r = Except.ok (id, s2)) :
    s2.store = (id, freshJob r) :: s.store ∧
    ∀ k, r.watcher_key = some k → hasOutstanding s.store k = false := by
  unfold submit at h
  split at h
  · exact absurd h (by simp)
  · split at h
    · exact absurd h (by simp)
    · rename_i h2
      simp only [Except.ok.injEq, Prod.mk.injEq] at h
      obtain ⟨hid, hs2⟩ := h
      subst hid
      subst hs2
      refine ⟨rfl, ?_⟩
      intro k hk
      rw [hk] at h2
      simpa using h2

lemma nonTermFor_startEntry (key id : String) (e : String × Job) :
    nonTermFor key
      (if e.1 == id && e.2.status == JobStatus.pending then
        (e.1, { e.2 with status := JobStatus.started })
      else e) = nonTermFor key e := by
  by_cases hg : (e.1 == id && e.2.status == JobStatus.pending) = true
  · rw [if_pos hg]
    have hp : e.2.status = JobStatus.pending := by
      simp only [Bool.and_eq_true, beq_iff_eq] at hg
      exact hg.2
    unfold nonTermFor
    rw [hp]
    rfl
  · rw [if_neg hg]

lemma countNonTerminal_storeStart (st : JobStore) (id key : String) :
    countNonTerminal (storeStart st id) key = countNonTerminal st key := by
  unfold countNonTerminal storeStart
  induction st with
  | nil => rfl
  | cons e rest ih =>
    rw [List.map_cons, List.filter_cons, List.filter_cons]
    rw [nonTermFor_startEntry key id e]
    cases hne : nonTermFor key e
    · rw [if_neg (by simp), if_neg (by simp)]
      exact ih
    · rw [if_pos rfl, if_pos rfl, List.length_cons, List.length_cons, ih]

lemma count_le_of_pointwise (st : JobStore) (key : String)
    (g : String × Job → String × Job)
    (hg : ∀ e, nonTermFor key (g e) = true → nonTermFor key e = true) :
    countNonTerminal (st.map g) key ≤ countNonTerminal st key := by
  unfold countNonTerminal
  induction st with
  | nil => simp
  | cons e rest ih =>
    rw [List.map_cons, List.filter_cons, List.filter_cons]
    cases hge : nonTermFor key (g e)
    · cases hne : nonTermFor key e
      · simpa [hge, hne] using ih
      · simp only [hge, hne, Bool.false_eq_true, if_false, if_true,
          List.length_cons]
        exact le_trans ih (Nat.le_succ _)
    · have hne := hg e hge
      simp only [hge, hne, if_true, List.length_cons]
      exact Nat.succ_le_succ ih

lemma nonTermFor_writeEntry (key id : String) (status : JobStatus)
    (patch : JobResult) (e : String × Job) :
    nonTermFor key (writeEntry id status patch e) = true →
    nonTermFor key e = true := by
  unfold writeEntry
  by_cases hg : (e.1 == id && !e.2.status.isTerminal) = true
  · rw [if_pos hg]
    intro hnew
    unfold nonTermFor at hnew ⊢
    simp only [Bool.and_eq_true] at hnew ⊢
    refine ⟨hnew.1, ?_⟩
    simp only [Bool.and_eq_true] at hg
    exact hg.2
  · rw [if_neg hg]
    exact fun hx => hx

lemma store_write_ok_shape (st : JobStore) (id : String) (status : JobStatus)
    (patch : JobResult) (st2 : JobStore)
    (h : store_write st id status patch = Except.ok st2) :
    st2 = st.map (writeEntry id status patch) := by
  unfold store_write at h
  split at h
  · exact absurd h (by simp)
  · split at h
    · exact absurd h (by simp)
    · simpa using h.symm

/-- The duplicate-dispatch-prevention invariant: at most one non-terminal
job per watcher key. -/
def DispatchInv (s : DispatchState) : Prop :=
  ∀ key, countNonTerminal s.store key ≤ 1

lemma step_preserves_inv (s : DispatchState) (a : DispatchAction)
    (h : DispatchInv s) : DispatchInv (step s a) := by
  cases a with
  | submitReq r =>
    intro key
    show countNonTerminal
      (match submit s r with
        | Except.ok p => p.2
        | Except.error _ => s).store key ≤ 1
    cases hs : submit s r with
    | error e => exact h key
    | ok p =>
      obtain ⟨hstore, hguard⟩ := submit_ok_shape s r p.1 p.2 (by rw [hs])
      show countNonTerminal p.2.store key ≤ 1
      rw [hstore]
      unfold countNonTerminal
      rw [List.filter_cons]
      cases hne : nonTermFor key (p.1, freshJob r)
      · simpa [hne] using h key
      · have hwk : r.watcher_key = some key := by
          unfold nonTermFor freshJob at hne
          simp only [Bool.and_eq_true, beq_iff_eq] at hne
          exact hne.1
        have h0 := count_zero_of_no_outstanding s.store key (hguard key hwk)
        unfold countNonTerminal at h0
        simp only [if_true, List.length_cons]
        omega
  | startJob id =>
    intro key
    show countNonTerminal
      (match store_read s.store id with
        | Except.ok j =>
          if j.status == JobStatus.pending then
            { s with store := storeStart s.store id, spawned := id :: s.spawned }
          else s
        | Except.error _ => s).store key ≤ 1
    cases hr : store_read s.store id with
    | error e => exact h key
    | ok j =>
      show countNonTerminal
        (if (j.status == JobStatus.pending) = true then
          { s with store := storeStart s.store id, spawned := id :: s.spawned }
        else s).store key ≤ 1
      by_cases hp : (j.status == JobStatus.pending) = true
      · rw [if_pos hp]
        show countNonTerminal (storeStart s.store id) key ≤ 1
        rw [countNonTerminal_storeStart]
        exact h key
      · rw [if_neg hp]
        exact h key
  | writeJob id status patch =>
    intro key
    show countNonTerminal
      (match store_write s.store id status patch with
        | Except.ok st2 => { s with store := st2 }
        | Except.error _ => s).store key ≤ 1
    cases hw : store_write s.store id status patch with
    | error e => exact h key
    | ok st2 =>
      show countNonTerminal st2 key ≤ 1
      rw [store_write_ok_shape s.store id status patch st2 hw]
      exact le_trans
        (count_le_of_pointwise s.store key (writeEntry id status patch)
          (nonTermFor_writeEntry key id status patch)) (h key)

lemma run_preserves_inv (acts : List DispatchAction) :
    ∀ s : DispatchState, DispatchInv s → DispatchInv (run s acts) := by
  induction acts with
  | nil => exact fun s h => h
  | cons a rest ih => exact fun s h => ih (step s a) (step_preserves_inv s a h)

lemma initState_inv : DispatchInv initState := by
  intro key
  simp [countNonTerminal, initState]

/-- Claim C4: in every state reachable from the initial state by submit,
start and write steps, each watcher key has at most one non-terminal job;
and a valid submission for a watcher key that already has a non-terminal job
outstanding is rejected with a conflict error. -/
theorem at_most_one_nonterminal_per_watcher
    (acts : List DispatchAction) (key : String)
    (s : DispatchState) (r : SubmitRequest) (k : String)
    (hk : r.watcher_key = some k)
    (hout : hasOutstanding s.store k = true)
    (hv : validRequest r = true) :
    countNonTerminal (run initState acts).store key ≤ 1 ∧
    submit s r = Except.error SubmitError.conflictError := by
  constructor
  · exact run_preserves_inv acts initState initState_inv key
  · unfold submit
    simp [hv, hk, hout]

def EX_KEY : String := "watch-1"

def exWReq : SubmitRequest :=
  { room_id := some RID_EX, url := none, duration := none
    watcher_key := some EX_KEY, options_ok := true }

def exConflictState : DispatchState :=
  { store := [(EX_ID0, freshJob exWReq)], lightQueue := []
    heavyQueue := [EX_ID0], nextId := 1, spawned := [] }

def exActs : List DispatchAction :=
  [DispatchAction.submitReq exWReq, DispatchAction.startJob EX_ID0,
   DispatchAction.submitReq exWReq]

/-- Claim C4 witness: a concrete action trace (submit for a watcher key,
start the job, attempt a duplicate submit) keeps the per-key bound, and the
duplicate submission against a state with the job outstanding is rejected. -/
theorem at_most_one_nonterminal_per_watcher_witness :
    countNonTerminal (run initState exActs).store EX_KEY ≤ 1 ∧
    submit exConflictState exWReq = Except.error SubmitError.conflictError :=
  at_most_one_nonterminal_per_watcher exActs EX_KEY exConflictState exWReq
    EX_KEY (by rfl) (by rfl) (by rfl)

/-! ## Watcher Registry -/

/-- A watch specification: target identity, poll interval, options elided. -/
structure WatcherSpec where
  room_id : Option String
  url : Option String
  poll_interval : Int
deriving Repr, DecidableEq

inductive RegistryError
  | conflictError
  | notFoundError
deriving DecidableEq, Repr

/-- The Watcher Registry as a keyed table: identity key to spec. -/
abbrev WatcherRegistry := List (String × WatcherSpec)

/-- Modelled from the spec: `register(spec) -> watcher_key`, ConflictError if
the identity key already has an active watcher (spec section 4.1). The
registry's source is not in the snapshot. -/
def register_watcher (reg : WatcherRegistry) (key : String)
    (spec : WatcherSpec) : Except RegistryError WatcherRegistry :=
  if (reg.lookup key).isSome then Except.error RegistryError.conflictError
  else Except.ok ((key, spec) :: reg)

/-- Modelled from the spec: `delete(key) -> ok`, NotFoundError if absent
(spec section 4.1). The registry's source is not in the snapshot. -/
def delete_watcher (reg : WatcherRegistry) (key : String) :
    Except RegistryError WatcherRegistry :=
  if (reg.lookup key).isSome then
    Except.ok (reg.filter (fun e => e.1 != key))
  else Except.error RegistryError.notFoundError

lemma lookup_filter_out (reg : WatcherRegistry) (key : String) :
    (reg.filter (fun e => e.1 != key)).lookup key = none := by
  induction reg with
  | nil => rfl
  | cons e rest ih =>
    obtain ⟨k, v⟩ := e
    rw [List.filter_cons]
    by_cases hk : ((k, v).1 != key) = true
    · rw [if_pos hk]
      have hne : (key == k) = false := by
        simp only [bne_iff_ne] at hk
        exact beq_eq_false_iff_ne.mpr fun hx => hk hx.symm
      simpa [List.lookup, hne] using ih
    · rw [if_neg hk]
      exact ih

/-- Claim C7: after a successful delete of a key, a second delete of the
same key fails with NotFoundError; deleting any absent key fails with
NotFoundError — never a duplicate success. -/
theorem delete_watcher_second_notfound
    (reg reg2 reg3 : WatcherRegistry) (key : String)
    (h : delete_watcher reg key = Except.ok reg2)
    (habs : reg3.lookup key = none) :
    delete_watcher reg2 key = Except.error RegistryError.notFoundError ∧
    delete_watcher reg3 key = Except.error RegistryError.notFoundError := by
  constructor
  · have hreg2 : reg2 = reg.filter (fun e => e.1 != key) := by
      unfold delete_watcher at h
      split at h
      · simpa using h.symm
      · exact absurd h (by simp)
    unfold delete_watcher
    rw [hreg2, lookup_filter_out]
    rfl
  · unfold delete_watcher
    rw [habs]
    rfl

def exSpec : WatcherSpec :=
  { room_id := some RID_EX, url := none, poll_interval := 60 }

def exRegistry : WatcherRegistry := [(EX_KEY, exSpec)]

/-- Claim C7 witness: delete a registered key, then delete it again. -/
theorem delete_watcher_second_notfound_witness :
    delete_watcher [] EX_KEY = Except.error RegistryError.notFoundError ∧
    delete_watcher [] EX_KEY = Except.error RegistryError.notFoundError :=
  delete_watcher_second_notfound exRegistry [] [] EX_KEY (by rfl) (by rfl)

/-! ## Poll Scheduler backoff -/

/-- The per-watcher polling state: the current sleep interval in seconds. -/
structure PollState where
  interval : Nat
deriving Repr, DecidableEq

/-- Modelled from the spec: one Poll Scheduler tick's interval update
(spec section 4.2): while offline, apply the secondary backoff multiplier
(times 1.5, in integer arithmetic) capped at a ceiling; on a live transition
(state change) reset to the base poll interval. The scheduler's source is
not in the snapshot. -/
def pollTick (base ceiling : Nat) (s : PollState) (live : Bool) : PollState :=
  if live then { interval := base }
  else { interval := min (s.interval * 3 / 2) ceiling }

/-- The interval after `n` consecutive offline polls starting from the base
interval. -/
def offlineInterval (base ceiling : Nat) : Nat → Nat
  | 0 => base
  | n + 1 =>
    (pollTick base ceiling { interval := offlineInterval base ceiling n } false).interval

lemma offlineInterval_le_ceiling (base ceiling : Nat) (hbc : base ≤ ceiling) :
    ∀ n, offlineInterval base ceiling n ≤ ceiling := by
  intro n
  cases n with
  | zero => exact hbc
  | succ m =>
    show min (offlineInterval base ceiling m * 3 / 2) ceiling ≤ ceiling
    exact Nat.min_le_right _ _

lemma le_mul3_div2 (i : Nat) : i ≤ i * 3 / 2 := by
  have h1 : i * 2 ≤ i * 3 := Nat.mul_le_mul_left i (by norm_num)
  have h2 : i * 2 / 2 = i := Nat.mul_div_cancel i (by norm_num)
  calc i = i * 2 / 2 := h2.symm
    _ ≤ i * 3 / 2 := Nat.div_le_div_right h1

/-- Claim C8: with the base interval below the ceiling, consecutive offline
polls yield non-decreasing intervals bounded by the ceiling, and a live
transition resets the interval to the base poll interval. -/
theorem backoff_monotone_and_reset
    (base ceiling : Nat) (hbc : base ≤ ceiling) (n : Nat) (s : PollState) :
    offlineInterval base ceiling n ≤ offlineInterval base ceiling (n + 1) ∧
    offlineInterval base ceiling n ≤ ceiling ∧
    (pollTick base ceiling s true).interval = base := by
  refine ⟨?_, offlineInterval_le_ceiling base ceiling hbc n, rfl⟩
  show offlineInterval base ceiling n ≤
    min (offlineInterval base ceiling n * 3 / 2) ceiling
  exact le_min (le_mul3_div2 _) (offlineInterval_le_ceiling base ceiling hbc n)

/-- Claim C8 witness: base 60s, ceiling 600s, third offline poll. -/
theorem backoff_monotone_and_reset_witness :
    offlineInterval 60 600 2 ≤ offlineInterval 60 600 3 ∧
    offlineInterval 60 600 2 ≤ 600 ∧
    (pollTick 60 600 { interval := 135 } true).interval = 60 :=
  backoff_monotone_and_reset 60 600 (by decide) 2 { interval := 135 }

/-! ## Subprocess Supervisor exit handling -/

/-- Modelled from the spec: the storage directory contents, as (directory,
file name) entries; the File Index and Supervisor sources are not in the
snapshot. -/
abbrev FileSystem := List (String × String)

/-- The files actually present under one output directory. -/
def filesUnder (fs : FileSystem) (dir : String) : List String :=
  (fs.filter (fun e => e.1 == dir)).map (fun e => e.2)

/-- The result payload recorded on process exit: the return code and the
enumeration of files actually created under the job's output path. -/
def exitResult (fs : FileSystem) (outputPath : String) (returncode : Int) :
    JobResult :=
  { emptyResult with returncode := some returncode
                     files := filesUnder fs outputPath }

/-- Modelled from the spec: the Subprocess Supervisor's normal-exit handling
(spec section 4.4): enumerate files actually created under the job's output
path; SUCCESS when the return code is zero and the expected artifact exists;
otherwise RETRY when the failure classification is transient and attempts
remain, else FAILURE. The supervisor's source is not in the snapshot. -/
def superviseExit (fs : FileSystem) (outputPath : String) (returncode : Int)
    (expected : String) (transient attemptsExhausted : Bool) :
    JobStatus × JobResult :=
  if returncode == 0 && (filesUnder fs outputPath).contains expected then
    (JobStatus.success, exitResult fs outputPath returncode)
  else if transient && !attemptsExhausted then
    (JobStatus.retry, exitResult fs outputPath returncode)
  else
    (JobStatus.failure, exitResult fs outputPath returncode)

lemma superviseExit_files (fs : FileSystem) (outputPath : String)
    (returncode : Int) (expected : String) (transient attemptsExhausted : Bool) :
    (superviseExit fs outputPath returncode expected transient
      attemptsExhausted).2.files = filesUnder fs outputPath := by
  unfold superviseExit
  split
  · rfl
  · split <;> rfl

/-- Claim C9: for a job completing with SUCCESS, the file list in its result
is exactly the set of files present under the job's output path: membership
in the recorded list coincides with presence under the output path. -/
theorem success_files_roundtrip
    (fs : FileSystem) (outputPath : String) (returncode : Int)
    (expected : String) (transient attemptsExhausted : Bool)
    (status : JobStatus) (res : JobResult) (f : String)
    (h : superviseExit fs outputPath returncode expected transient
          attemptsExhausted = (status, res))
    (_hs : status = JobStatus.success) :
    res.files = filesUnder fs outputPath ∧
    (f ∈ res.files ↔ f ∈ filesUnder fs outputPath) := by
  have hres : res.files = filesUnder fs outputPath := by
    have h2 : res = (superviseExit fs outputPath returncode expected transient
        attemptsExhausted).2 := (congrArg Prod.snd h).symm
    rw [h2]
    exact superviseExit_files fs outputPath returncode expected transient
      attemptsExhausted
  exact ⟨hres, by rw [hres]⟩

def OUT_DIR : String := "/data/recordings/123456789"

def FILE_A : String := "123456789_20261012.mp4"

def exFs : FileSystem := [(OUT_DIR, FILE_A)]

/-- Claim C9 witness: a zero exit with the expected artifact present yields
SUCCESS with exactly the directory's files recorded. -/
theorem success_files_roundtrip_witness :
    (exitResult exFs OUT_DIR 0).files = filesUnder exFs OUT_DIR ∧
    (FILE_A ∈ (exitResult exFs OUT_DIR 0).files ↔
      FILE_A ∈ filesUnder exFs OUT_DIR) :=
  success_files_roundtrip exFs OUT_DIR 0 FILE_A false false
    JobStatus.success (exitResult exFs OUT_DIR 0) FILE_A (by rfl) rfl

end TLR
